import Mathlib

/-!
Shallow embedding of the rendering-resource layer of vk-rpg:
the swapchain (`Src/Core/GPU/Swapchain.cpp`), the attachment data model
(`Src/Core/Attachment.h`) and the material abstraction (`Material.h`).

Vulkan handles (fences, semaphores, images, pipeline layouts) are modelled
as natural numbers; `VK_NULL_HANDLE` entries of the `imagesInFlight` table
are modelled with `Option` (`none` = null handle).  Calls into the Vulkan
driver are oracles: their results (`vkAcquireNextImageKHR` status,
`vkQueuePresentKHR` status, the actual swapchain image count reported by
`vkGetSwapchainImagesKHR`, the device's format-support query) are passed in
as parameters, and the driver-visible side effects of a member function are
returned as an explicit trace of events.
-/

/-- The subset of `VkFormat` values this code mentions, plus one spare
unrelated format so that theorems can be exercised on lists that do not
contain the preferred format. -/
inductive VkFormat where
  | B8G8R8A8_SRGB
  | R8G8B8A8_UNORM
  | D32_SFLOAT
  | D32_SFLOAT_S8_UINT
  | D24_UNORM_S8_UINT
deriving DecidableEq, Repr

/-- Color spaces: the preferred one and one alternative. -/
inductive VkColorSpaceKHR where
  | SRGB_NONLINEAR
  | DISPLAY_P3_NONLINEAR
deriving DecidableEq, Repr

/-- Present modes recognised by the policy in `chooseSwapPresentMode`. -/
inductive VkPresentModeKHR where
  | IMMEDIATE
  | MAILBOX
  | FIFO
  | FIFO_RELAXED
deriving DecidableEq, Repr

/-- `VkSurfaceFormatKHR`: a pixel format together with a color space. -/
structure VkSurfaceFormatKHR where
  format : VkFormat
  colorSpace : VkColorSpaceKHR
deriving DecidableEq, Repr

/-- `VkExtent2D`. -/
structure VkExtent2D where
  width : Nat
  height : Nat
deriving DecidableEq, Repr

/-- `std::numeric_limits<uint32_t>::max()`, the sentinel in `currentExtent`. -/
def UINT32_MAX : Nat := 2 ^ 32 - 1

/-- `VkSurfaceCapabilitiesKHR` (the fields the swapchain code reads). -/
structure VkSurfaceCapabilitiesKHR where
  minImageCount : Nat
  maxImageCount : Nat
  currentExtent : VkExtent2D
  minImageExtent : VkExtent2D
  maxImageExtent : VkExtent2D
deriving DecidableEq, Repr

/-- `SwapChainSupportDetails` as returned by `device.getSwapChainSupport()`. -/
structure SwapChainSupportDetails where
  capabilities : VkSurfaceCapabilitiesKHR
  formats : List VkSurfaceFormatKHR
  presentModes : List VkPresentModeKHR
deriving Repr

/-- The predicate of the loop in `chooseSwapSurfaceFormat`: the preferred
format is `VK_FORMAT_B8G8R8A8_SRGB` with `VK_COLOR_SPACE_SRGB_NONLINEAR_KHR`. -/
def isPreferredSurfaceFormat (f : VkSurfaceFormatKHR) : Bool :=
  f.format == VkFormat.B8G8R8A8_SRGB && f.colorSpace == VkColorSpaceKHR.SRGB_NONLINEAR

/-- The preferred surface-format pair itself. -/
def preferredSurfaceFormat : VkSurfaceFormatKHR :=
  ⟨VkFormat.B8G8R8A8_SRGB, VkColorSpaceKHR.SRGB_NONLINEAR⟩

/-- `EngineSwapChain::chooseSwapSurfaceFormat`: scan the available formats
for the preferred pair and return it; otherwise fall back to
`availableFormats[0]`.  The fallback is modelled with `head?`: `none` is the
out-of-bounds access on an empty vector. -/
def chooseSwapSurfaceFormat (availableFormats : List VkSurfaceFormatKHR) :
    Option VkSurfaceFormatKHR :=
  match availableFormats.find? isPreferredSurfaceFormat with
  | some f => some f
  | none => availableFormats.head?

/-- `EngineSwapChain::chooseSwapPresentMode`: the mailbox loop is commented
out in the source; the live code scans for `VK_PRESENT_MODE_IMMEDIATE_KHR`
and otherwise returns `VK_PRESENT_MODE_FIFO_KHR`. -/
def chooseSwapPresentMode (availablePresentModes : List VkPresentModeKHR) :
    VkPresentModeKHR :=
  match availablePresentModes.find? (· == VkPresentModeKHR.IMMEDIATE) with
  | some m => m
  | none => VkPresentModeKHR.FIFO

/-- `EngineSwapChain::chooseSwapExtent`: a defined `currentExtent`
(width different from the `UINT32_MAX` sentinel) is returned verbatim;
otherwise the window extent is clamped per axis into
`[minImageExtent, maxImageExtent]` by `max(min, std::min(max, actual))`. -/
def chooseSwapExtent (capabilities : VkSurfaceCapabilitiesKHR)
    (windowExtent : VkExtent2D) : VkExtent2D :=
  if capabilities.currentExtent.width ≠ UINT32_MAX then
    capabilities.currentExtent
  else
    { width := max capabilities.minImageExtent.width
        (min capabilities.maxImageExtent.width windowExtent.width),
      height := max capabilities.minImageExtent.height
        (min capabilities.maxImageExtent.height windowExtent.height) }

/-- Modelled from the spec: `EngineDevice::findSupportedFormat` is declared
in `Device.h`, which is not among the sources; per the spec it is an
"ordered candidate list + desired tiling/features → best match" query that
"picks the first supported candidate".  The device's support judgment for
the fixed tiling/features used by `findDepthFormat` is the oracle
`supported`; `none` models the no-candidate-supported failure path. -/
def findSupportedFormat (supported : VkFormat → Bool)
    (candidates : List VkFormat) : Option VkFormat :=
  candidates.find? supported

/-- The candidate list built by `EngineSwapChain::findDepthFormat`:
`{ D32_SFLOAT_S8_UINT, D24_UNORM_S8_UINT }`, with `D32_SFLOAT` appended
(`push_back`) when a stencil component is not required. -/
def depthFormatCandidates (stencilRequired : Bool) : List VkFormat :=
  if !stencilRequired then
    [VkFormat.D32_SFLOAT_S8_UINT, VkFormat.D24_UNORM_S8_UINT, VkFormat.D32_SFLOAT]
  else
    [VkFormat.D32_SFLOAT_S8_UINT, VkFormat.D24_UNORM_S8_UINT]

/-- `EngineSwapChain::findDepthFormat`. -/
def findDepthFormat (supported : VkFormat → Bool) (stencilRequired : Bool) :
    Option VkFormat :=
  findSupportedFormat supported (depthFormatCandidates stencilRequired)

/-- Whether a format carries a stencil component. -/
def hasStencil (f : VkFormat) : Bool :=
  f == VkFormat.D32_SFLOAT_S8_UINT || f == VkFormat.D24_UNORM_S8_UINT

/-- `VkResult` statuses relevant to acquire/submit/present: success, the
recoverable surface-stale conditions, and an unexpected error. -/
inductive VkResult where
  | SUCCESS
  | SUBOPTIMAL_KHR
  | ERROR_OUT_OF_DATE_KHR
  | ERROR_DEVICE_LOST
deriving DecidableEq, Repr

/-- `AttachmentType` from `Attachment.h`. -/
inductive AttachmentType where
  | COLOR
  | RESOLVE
  | DEPTH
  | DEPTH_STENCIL
deriving DecidableEq, Repr

/-- `AttachmentProperties` from `Attachment.h` (sample count as a plain
number; `VK_SAMPLE_COUNT_1_BIT` is 1). -/
structure AttachmentProperties where
  type : AttachmentType
  extent : VkExtent2D
  format : VkFormat
  imageCount : Nat
  samples : Nat
deriving DecidableEq, Repr

/-- The swapchain-borrowed `Attachment`: its properties and the wrapped
image handles (one entry per swapchain image). -/
structure Attachment where
  props : AttachmentProperties
  images : List Nat
deriving DecidableEq, Repr

/-- Modelled from the spec: `MAX_FRAMES_IN_FLIGHT` is declared in
`Swapchain.h`, which is not among the sources; the spec fixes it as
"a fixed small constant, e.g. 2". -/
def MAX_FRAMES_IN_FLIGHT : Nat := 2

/-- The mutable members of `EngineSwapChain` the claims are about.  Fence
and semaphore handles are numbers; an `imagesInFlight` entry is `none` for
`VK_NULL_HANDLE` and `some h` for the handle `h` of an in-flight fence. -/
structure SwapChainState where
  currentFrame : Nat
  imageFormat : VkFormat
  depthFormat : VkFormat
  extent : VkExtent2D
  imageCount : Nat
  swapchainAttachment : Attachment
  imageAvailableSemaphores : List Nat
  renderFinishedSemaphores : List Nat
  inFlightFences : List Nat
  imagesInFlight : List (Option Nat)
deriving DecidableEq, Repr

/-- Driver-visible side effects of the swapchain member functions, in
program order. -/
inductive Event where
  | waitFence (fence : Nat)
  | acquireImage (semaphore : Nat)
  | resetFence (fence : Nat)
  | queueSubmit (waitSemaphore : Nat) (signalSemaphore : Nat) (signalFence : Nat)
  | present (waitSemaphore : Nat)
deriving DecidableEq, Repr

/-- `EngineSwapChain::init` requests `minImageCount + 1` images, lowered to
`maxImageCount` when a maximum is declared (`maxImageCount > 0`) and
exceeded; this value goes into `VkSwapchainCreateInfoKHR::minImageCount`. -/
def requestedImageCount (capabilities : VkSurfaceCapabilitiesKHR) : Nat :=
  let c := capabilities.minImageCount + 1
  if capabilities.maxImageCount > 0 && c > capabilities.maxImageCount then
    capabilities.maxImageCount
  else c

/-- `EngineSwapChain::getAttachmentProperties`. -/
def getAttachmentProperties (imageFormat : VkFormat) (extent : VkExtent2D)
    (imageCount : Nat) : AttachmentProperties :=
  { type := AttachmentType.COLOR, extent := extent, format := imageFormat,
    imageCount := imageCount, samples := 1 }

/-- The constructor path `EngineSwapChain::EngineSwapChain` =
`init(windowExtent)` followed by `createSyncObjects()`.  Oracles:
`supported` is the device's format-support query used by `findDepthFormat`;
`actualImageCount` is the image count read back from
`vkGetSwapchainImagesKHR` (the source notes it "may be higher than
`VkSwapchainCreateInfoKHR::minImageCount`"), and the swapchain image
handles are `0, 1, ...` up to that count.  `none` models the throwing
failure paths (empty format list, no supported depth format).
`createSyncObjects` resizes the semaphore and fence arrays to
`MAX_FRAMES_IN_FLIGHT` (handles modelled as distinct numbers) and the
`imagesInFlight` table to `imageCount`, filled with `VK_NULL_HANDLE`.
Modelled from the spec: the initial value `currentFrame = 0` is an
initializer in `Swapchain.h`, which is not among the sources. -/
def mkSwapChain (supported : VkFormat → Bool)
    (support : SwapChainSupportDetails) (windowExtent : VkExtent2D)
    (actualImageCount : Nat) : Option SwapChainState :=
  match chooseSwapSurfaceFormat support.formats, findDepthFormat supported true with
  | some surfaceFormat, some depth =>
    let ext := chooseSwapExtent support.capabilities windowExtent
    let cnt := actualImageCount
    some
      { currentFrame := 0,
        imageFormat := surfaceFormat.format,
        depthFormat := depth,
        extent := ext,
        imageCount := cnt,
        swapchainAttachment :=
          { props := getAttachmentProperties surfaceFormat.format ext cnt,
            images := List.range cnt },
        imageAvailableSemaphores := List.range MAX_FRAMES_IN_FLIGHT,
        renderFinishedSemaphores :=
          (List.range MAX_FRAMES_IN_FLIGHT).map (· + MAX_FRAMES_IN_FLIGHT),
        inFlightFences :=
          (List.range MAX_FRAMES_IN_FLIGHT).map (· + 2 * MAX_FRAMES_IN_FLIGHT),
        imagesInFlight := List.replicate cnt none }
  | _, _ => none

/-- `EngineSwapChain::acquireNextImage`: waits on the current slot's
in-flight fence, then calls `vkAcquireNextImageKHR` with the current slot's
image-available semaphore.  The acquired index and the status are driver
oracles (`acquiredIndex`, `acquireResult`); the body writes `*imageIndex`
and returns the status, touching no member. -/
def acquireNextImage (s : SwapChainState) (acquiredIndex : Nat)
    (acquireResult : VkResult) :
    SwapChainState × List Event × Nat × VkResult :=
  (s,
   [Event.waitFence (s.inFlightFences.getD s.currentFrame 0),
    Event.acquireImage (s.imageAvailableSemaphores.getD s.currentFrame 0)],
   acquiredIndex, acquireResult)

/-- `EngineSwapChain::submitCommandBuffers`.  Oracles: `submitOk` is
whether `vkQueueSubmit` returns `VK_SUCCESS` (otherwise the function
throws, modelled by `Except.error`), `presentResult` is what
`vkQueuePresentKHR` returns.  Steps, in source order: wait on the fence in
`imagesInFlight[*imageIndex]` when it is not `VK_NULL_HANDLE`; record the
current slot's fence in that table entry; reset the current slot's fence;
submit, waiting on the image-available semaphore and signaling the
render-finished semaphore and the fence; present, waiting on the
render-finished semaphore; advance `currentFrame` modulo
`MAX_FRAMES_IN_FLIGHT`; return the present status. -/
def submitCommandBuffers (s : SwapChainState) (imageIndex : Nat)
    (submitOk : Bool) (presentResult : VkResult) :
    Except String (SwapChainState × List Event × VkResult) :=
  let waitEvents : List Event :=
    match s.imagesInFlight.getD imageIndex none with
    | some fence => [Event.waitFence fence]
    | none => []
  let curFence := s.inFlightFences.getD s.currentFrame 0
  let imageAvailable := s.imageAvailableSemaphores.getD s.currentFrame 0
  let renderFinished := s.renderFinishedSemaphores.getD s.currentFrame 0
  let s1 := { s with imagesInFlight := s.imagesInFlight.set imageIndex (some curFence) }
  if submitOk then
    Except.ok
      ({ s1 with currentFrame := (s1.currentFrame + 1) % MAX_FRAMES_IN_FLIGHT },
       waitEvents ++
         [Event.resetFence curFence,
          Event.queueSubmit imageAvailable renderFinished curFence,
          Event.present renderFinished],
       presentResult)
  else
    Except.error "failed to submit draw command buffer!"

/-- A sequence of `submitCommandBuffers` calls with successful queue
submission; each list entry supplies the call's image index and its present
status oracle. -/
def runSubmits (s : SwapChainState) : List (Nat × VkResult) → SwapChainState
  | [] => s
  | (imageIndex, r) :: rest =>
    match submitCommandBuffers s imageIndex true r with
    | Except.ok (s1, _, _) => runSubmits s1 rest
    | Except.error _ => s

/-- Shader stage flag bits from the Vulkan headers. -/
def VK_SHADER_STAGE_VERTEX_BIT : Nat := 1

/-- Fragment stage flag bit. -/
def VK_SHADER_STAGE_FRAGMENT_BIT : Nat := 16

/-- Commands recorded into a command buffer by `Material`. -/
inductive GpuCmd where
  | pushConstants (layout : Nat) (stageFlags : Nat) (offset : Nat) (size : Nat)
  | bindPipeline (pipeline : Nat)
deriving DecidableEq, Repr

/-- The members of `Material` these claims touch: the pipeline layout
handle and the `pushConstSize` declared through `MaterialCreateInfo` at
construction. -/
structure Material where
  pipelineLayout : Nat
  pushConstSize : Nat
deriving DecidableEq, Repr

/-- `Material::writePushConstants<T>(cmdBuf, data)`: one `vkCmdPushConstants`
call on the material's layout, stages `VERTEX | FRAGMENT`, offset 0, size
`sizeof(T)` (`sizeofT` here, since the payload is opaque byte data). -/
def writePushConstants (m : Material) (sizeofT : Nat) : List GpuCmd :=
  [GpuCmd.pushConstants m.pipelineLayout
    (VK_SHADER_STAGE_VERTEX_BIT ||| VK_SHADER_STAGE_FRAGMENT_BIT) 0 sizeofT]

/-- The loop predicate holds exactly at the preferred pair. -/
theorem isPreferredSurfaceFormat_iff (f : VkSurfaceFormatKHR) :
    isPreferredSurfaceFormat f = true ↔ f = preferredSurfaceFormat := by
  cases f with
  | mk fmt cs =>
    simp only [isPreferredSurfaceFormat, preferredSurfaceFormat, Bool.and_eq_true,
      beq_iff_eq, VkSurfaceFormatKHR.mk.injEq]

/-- A linear scan with `find?` never returns an element strictly after a
satisfying one: whatever it returns sits at a position all of whose
predecessors fail the predicate. -/
theorem find?_earlier_false {α : Type} (p : α → Bool) :
    ∀ (l : List α) (a : α), l.find? p = some a →
      ∃ n, l.get? n = some a ∧ ∀ g ∈ l.take n, p g = false := by
  intro l
  induction l with
  | nil => intro a h; simp [List.find?] at h
  | cons x xs ih =>
    intro a h
    cases hx : p x with
    | true =>
      rw [List.find?_cons_of_pos _ hx] at h
      cases h
      exact ⟨0, rfl, by simp⟩
    | false =>
      rw [List.find?_cons_of_neg _ (by simp [hx])] at h
      obtain ⟨n, hn, hpre⟩ := ih a h
      refine ⟨n + 1, by simpa using hn, ?_⟩
      intro g hg
      rw [List.take_succ_cons] at hg
      rcases List.mem_cons.mp hg with hgx | hgxs
      · exact hgx ▸ hx
      · exact hpre g hgxs

/-- C3: surface-format selection.  If the available formats contain the
preferred pair (`VK_FORMAT_B8G8R8A8_SRGB`, `VK_COLOR_SPACE_SRGB_NONLINEAR_KHR`)
at any position, `chooseSwapSurfaceFormat` returns exactly that pair; if
they do not, it returns the first element of the list. -/
theorem chooseSwapSurfaceFormat_preferred_or_first (l : List VkSurfaceFormatKHR) :
    (preferredSurfaceFormat ∈ l →
      chooseSwapSurfaceFormat l = some preferredSurfaceFormat) ∧
    (preferredSurfaceFormat ∉ l → ∀ f rest, l = f :: rest →
      chooseSwapSurfaceFormat l = some f) := by
  constructor
  · intro hmem
    cases hf : l.find? isPreferredSurfaceFormat with
    | none =>
      exact absurd ((isPreferredSurfaceFormat_iff preferredSurfaceFormat).mpr rfl)
        (List.find?_eq_none.mp hf preferredSurfaceFormat hmem)
    | some f =>
      have hfp := (isPreferredSurfaceFormat_iff f).mp (List.find?_some hf)
      simp only [chooseSwapSurfaceFormat, hf, hfp]
  · intro hnmem f rest hl
    subst hl
    have hnone : (f :: rest).find? isPreferredSurfaceFormat = none := by
      rw [List.find?_eq_none]
      intro x hx hpx
      exact hnmem (((isPreferredSurfaceFormat_iff x).mp hpx) ▸ hx)
    simp only [chooseSwapSurfaceFormat, hnone, List.head?_cons]

/-- Witness for C3 on concrete format lists: one list holding the preferred
pair in second position, one list without the preferred pair. -/
theorem chooseSwapSurfaceFormat_preferred_or_first_witness :
    chooseSwapSurfaceFormat
        [⟨VkFormat.R8G8B8A8_UNORM, VkColorSpaceKHR.SRGB_NONLINEAR⟩, preferredSurfaceFormat] =
      some preferredSurfaceFormat ∧
    chooseSwapSurfaceFormat
        [⟨VkFormat.R8G8B8A8_UNORM, VkColorSpaceKHR.SRGB_NONLINEAR⟩,
         ⟨VkFormat.B8G8R8A8_SRGB, VkColorSpaceKHR.DISPLAY_P3_NONLINEAR⟩] =
      some ⟨VkFormat.R8G8B8A8_UNORM, VkColorSpaceKHR.SRGB_NONLINEAR⟩ :=
  ⟨(chooseSwapSurfaceFormat_preferred_or_first _).1 (by decide),
   (chooseSwapSurfaceFormat_preferred_or_first _).2 (by decide) _ _ rfl⟩

/-- C9: `chooseSwapSurfaceFormat` needs a non-empty format list.  On any
non-empty list it totally returns an element of the list; on the empty list
the `availableFormats[0]` fallback is out of bounds (`none` here). -/
theorem chooseSwapSurfaceFormat_nonempty_precondition :
    (∀ l : List VkSurfaceFormatKHR, l ≠ [] →
      ∃ f, chooseSwapSurfaceFormat l = some f ∧ f ∈ l) ∧
    chooseSwapSurfaceFormat [] = none := by
  constructor
  · intro l hl
    cases hf : l.find? isPreferredSurfaceFormat with
    | some f =>
      exact ⟨f, by simp only [chooseSwapSurfaceFormat, hf],
        List.mem_of_find?_eq_some hf⟩
    | none =>
      cases l with
      | nil => exact absurd rfl hl
      | cons a t =>
        exact ⟨a, by simp only [chooseSwapSurfaceFormat, hf, List.head?_cons],
          List.mem_cons_self a t⟩
  · rfl

/-- Witness for C9: a concrete singleton list without the preferred pair. -/
theorem chooseSwapSurfaceFormat_nonempty_precondition_witness :
    ∃ f, chooseSwapSurfaceFormat
        [⟨VkFormat.D32_SFLOAT, VkColorSpaceKHR.DISPLAY_P3_NONLINEAR⟩] = some f ∧
      f ∈ [(⟨VkFormat.D32_SFLOAT, VkColorSpaceKHR.DISPLAY_P3_NONLINEAR⟩ : VkSurfaceFormatKHR)] :=
  chooseSwapSurfaceFormat_nonempty_precondition.1 _ (by decide)

/-- C4: present-mode selection.  Lists containing
`VK_PRESENT_MODE_IMMEDIATE_KHR` yield immediate mode; all other lists,
including the empty one, yield `VK_PRESENT_MODE_FIFO_KHR`. -/
theorem chooseSwapPresentMode_immediate_else_fifo (l : List VkPresentModeKHR) :
    (VkPresentModeKHR.IMMEDIATE ∈ l →
      chooseSwapPresentMode l = VkPresentModeKHR.IMMEDIATE) ∧
    (VkPresentModeKHR.IMMEDIATE ∉ l →
      chooseSwapPresentMode l = VkPresentModeKHR.FIFO) := by
  constructor
  · intro hmem
    cases hf : l.find? (· == VkPresentModeKHR.IMMEDIATE) with
    | none =>
      have := List.find?_eq_none.mp hf VkPresentModeKHR.IMMEDIATE hmem
      simp at this
    | some m =>
      have hm := List.find?_some hf
      rw [beq_iff_eq] at hm
      simp only [chooseSwapPresentMode, hf, hm]
  · intro hn
    have hnone : l.find? (· == VkPresentModeKHR.IMMEDIATE) = none := by
      rw [List.find?_eq_none]
      intro x hx hpx
      rw [beq_iff_eq] at hpx
      exact hn (hpx ▸ hx)
    simp only [chooseSwapPresentMode, hnone]

/-- Witness for C4: a list with immediate mode, a recognized-mode-free
list, and the empty list. -/
theorem chooseSwapPresentMode_immediate_else_fifo_witness :
    chooseSwapPresentMode
        [VkPresentModeKHR.MAILBOX, VkPresentModeKHR.IMMEDIATE] =
      VkPresentModeKHR.IMMEDIATE ∧
    chooseSwapPresentMode [VkPresentModeKHR.MAILBOX, VkPresentModeKHR.FIFO_RELAXED] =
      VkPresentModeKHR.FIFO ∧
    chooseSwapPresentMode [] = VkPresentModeKHR.FIFO :=
  ⟨(chooseSwapPresentMode_immediate_else_fifo _).1 (by decide),
   (chooseSwapPresentMode_immediate_else_fifo _).2 (by decide),
   (chooseSwapPresentMode_immediate_else_fifo []).2 (by decide)⟩

/-- C5: extent selection.  With the `UINT32_MAX` sentinel in
`currentExtent.width` the requested window extent is clamped componentwise
into `[minImageExtent, maxImageExtent]` (equal to the source's
`max(min, std::min(max, requested))` per axis, and inside the interval
whenever the interval is well-formed); with a defined `currentExtent` that
extent is returned verbatim, regardless of the requested extent. -/
theorem chooseSwapExtent_clamps (caps : VkSurfaceCapabilitiesKHR) (w : VkExtent2D) :
    (caps.currentExtent.width = UINT32_MAX →
      chooseSwapExtent caps w =
        ⟨max caps.minImageExtent.width (min caps.maxImageExtent.width w.width),
         max caps.minImageExtent.height (min caps.maxImageExtent.height w.height)⟩ ∧
      (caps.minImageExtent.width ≤ caps.maxImageExtent.width →
        caps.minImageExtent.width ≤ (chooseSwapExtent caps w).width ∧
          (chooseSwapExtent caps w).width ≤ caps.maxImageExtent.width) ∧
      (caps.minImageExtent.height ≤ caps.maxImageExtent.height →
        caps.minImageExtent.height ≤ (chooseSwapExtent caps w).height ∧
          (chooseSwapExtent caps w).height ≤ caps.maxImageExtent.height)) ∧
    (caps.currentExtent.width ≠ UINT32_MAX →
      chooseSwapExtent caps w = caps.currentExtent) := by
  constructor
  · intro h
    have he : chooseSwapExtent caps w =
        ⟨max caps.minImageExtent.width (min caps.maxImageExtent.width w.width),
         max caps.minImageExtent.height (min caps.maxImageExtent.height w.height)⟩ := by
      simp [chooseSwapExtent, h]
    refine ⟨he, ?_, ?_⟩
    · intro hle
      rw [he]
      exact ⟨Nat.le_max_left _ _, max_le hle (Nat.min_le_left _ _)⟩
    · intro hle
      rw [he]
      exact ⟨Nat.le_max_left _ _, max_le hle (Nat.min_le_left _ _)⟩
  · intro h
    simp [chooseSwapExtent, h]

/-- Witness for C5: a sentinel-extent capability clamping (800,600) into
[100,200]², and a defined-extent capability returning (1024,768) verbatim. -/
theorem chooseSwapExtent_clamps_witness :
    chooseSwapExtent ⟨2, 3, ⟨UINT32_MAX, 600⟩, ⟨100, 100⟩, ⟨200, 200⟩⟩ ⟨800, 600⟩ =
      ⟨max 100 (min 200 800), max 100 (min 200 600)⟩ ∧
    chooseSwapExtent ⟨2, 3, ⟨1024, 768⟩, ⟨100, 100⟩, ⟨200, 200⟩⟩ ⟨800, 600⟩ =
      ⟨1024, 768⟩ :=
  ⟨((chooseSwapExtent_clamps _ _).1 rfl).1,
   (chooseSwapExtent_clamps _ _).2 (by decide)⟩

/-- C6: depth-format selection.  `findDepthFormat` returns a candidate that
is supported, that lies in the stencil-filtered preference list, and such
that every candidate placed earlier in that list is unsupported; with
`stencilRequired = true` every candidate has a stencil component, and with
`stencilRequired = false` a stencil format is never chosen while an earlier
supported non-stencil candidate exists. -/
theorem findDepthFormat_first_supported (supported : VkFormat → Bool)
    (stencilRequired : Bool) (f : VkFormat)
    (h : findDepthFormat supported stencilRequired = some f) :
    supported f = true ∧ f ∈ depthFormatCandidates stencilRequired ∧
    (∃ n, (depthFormatCandidates stencilRequired).get? n = some f ∧
      ∀ g ∈ (depthFormatCandidates stencilRequired).take n, supported g = false) ∧
    (∀ g ∈ depthFormatCandidates true, hasStencil g = true) ∧
    (stencilRequired = false → hasStencil f = true →
      ∀ i j g, (depthFormatCandidates false).get? i = some g →
        (depthFormatCandidates false).get? j = some f →
        i < j → hasStencil g = false → supported g = false) := by
  have h' : (depthFormatCandidates stencilRequired).find? supported = some f := h
  refine ⟨List.find?_some h', List.mem_of_find?_eq_some h',
    find?_earlier_false supported _ f h', by decide, ?_⟩
  intro hsr hf i j g hgi hfj hij hgst
  subst hsr
  have hj : j < 3 := by
    by_contra hj
    rw [List.get?_eq_none.mpr (by simp [depthFormatCandidates]; omega)] at hfj
    exact Option.noConfusion hfj
  interval_cases j
  · omega
  · interval_cases i
    simp only [depthFormatCandidates, Bool.not_false, if_pos rfl] at hgi
    simp only [List.get?] at hgi
    cases hgi
    simp [hasStencil] at hgst
  · simp only [depthFormatCandidates, Bool.not_false, if_pos rfl] at hfj
    simp only [List.get?] at hfj
    cases hfj
    simp [hasStencil] at hf

/-- Witness for C6: with only `D24_UNORM_S8_UINT` supported, selection
skips the earlier unsupported candidate and lands on a position whose
predecessors are all unsupported. -/
theorem findDepthFormat_first_supported_witness :
    ∃ n, (depthFormatCandidates false).get? n = some VkFormat.D24_UNORM_S8_UINT ∧
      ∀ g ∈ (depthFormatCandidates false).take n,
        (g == VkFormat.D24_UNORM_S8_UINT) = false :=
  (findDepthFormat_first_supported (· == VkFormat.D24_UNORM_S8_UINT) false
    VkFormat.D24_UNORM_S8_UINT (by decide)).2.2.1

/-- C8: `Material::writePushConstants` records exactly one push-constant
write, on the material's pipeline layout, at offset 0, of the payload's
size, visible to the vertex and fragment stages both; the output never
depends on the `pushConstSize` declared at construction, so a payload
exceeding it is neither detected nor signaled. -/
theorem writePushConstants_single_unchecked (m : Material) (sizeofT : Nat) :
    writePushConstants m sizeofT =
      [GpuCmd.pushConstants m.pipelineLayout
        (VK_SHADER_STAGE_VERTEX_BIT ||| VK_SHADER_STAGE_FRAGMENT_BIT) 0 sizeofT] ∧
    (writePushConstants m sizeofT).length = 1 ∧
    (VK_SHADER_STAGE_VERTEX_BIT ||| VK_SHADER_STAGE_FRAGMENT_BIT) &&&
        VK_SHADER_STAGE_VERTEX_BIT = VK_SHADER_STAGE_VERTEX_BIT ∧
    (VK_SHADER_STAGE_VERTEX_BIT ||| VK_SHADER_STAGE_FRAGMENT_BIT) &&&
        VK_SHADER_STAGE_FRAGMENT_BIT = VK_SHADER_STAGE_FRAGMENT_BIT ∧
    ∀ pcs : Nat, writePushConstants { m with pushConstSize := pcs } sizeofT =
      writePushConstants m sizeofT :=
  ⟨rfl, rfl, by decide, by decide, fun _ => rfl⟩

/-- C10: `EngineSwapChain::acquireNextImage` mutates no member of the
swapchain: the state after the call equals the state before, field by
field, and the call's only outputs are the written image index and the
returned status (both driver oracles passed through). -/
theorem acquireNextImage_no_mutation (s : SwapChainState) (i : Nat) (r : VkResult) :
    (acquireNextImage s i r).1 = s ∧
    (acquireNextImage s i r).1.currentFrame = s.currentFrame ∧
    (acquireNextImage s i r).1.imagesInFlight = s.imagesInFlight ∧
    (acquireNextImage s i r).1.inFlightFences = s.inFlightFences ∧
    (acquireNextImage s i r).1.imageAvailableSemaphores = s.imageAvailableSemaphores ∧
    (acquireNextImage s i r).1.renderFinishedSemaphores = s.renderFinishedSemaphores ∧
    (acquireNextImage s i r).1.extent = s.extent ∧
    (acquireNextImage s i r).1.imageFormat = s.imageFormat ∧
    (acquireNextImage s i r).1.depthFormat = s.depthFormat ∧
    (acquireNextImage s i r).1.imageCount = s.imageCount ∧
    (acquireNextImage s i r).1.swapchainAttachment = s.swapchainAttachment ∧
    (acquireNextImage s i r).2.2 = (i, r) :=
  ⟨rfl, rfl, rfl, rfl, rfl, rfl, rfl, rfl, rfl, rfl, rfl, rfl⟩

/-- C7: requested swapchain image count.  `init` asks for
`minImageCount + 1` images, capped at `maxImageCount` when one is declared
(`maxImageCount > 0`; 0 means unbounded), i.e.
`min(minImageCount + 1, maxImageCount)` in the bounded case.  Construction
then stores the count reported back by the driver (at least the requested
minimum) and the swapchain `Attachment` holds exactly that many image
entries; with `minImageCount = 2` and `maxImageCount = 0` the resulting
`imageCount` is at least 3. -/
theorem swapChain_imageCount_spec :
    (∀ caps : VkSurfaceCapabilitiesKHR,
      requestedImageCount caps =
        if caps.maxImageCount > 0 then
          min (caps.minImageCount + 1) caps.maxImageCount
        else caps.minImageCount + 1) ∧
    (∀ (supported : VkFormat → Bool) (support : SwapChainSupportDetails)
        (w : VkExtent2D) (actual : Nat) (st : SwapChainState),
      mkSwapChain supported support w actual = some st →
      requestedImageCount support.capabilities ≤ actual →
        st.imageCount = actual ∧
        st.swapchainAttachment.images.length = st.imageCount ∧
        st.swapchainAttachment.props.imageCount = st.imageCount ∧
        st.imagesInFlight.length = st.imageCount ∧
        (support.capabilities.minImageCount = 2 →
          support.capabilities.maxImageCount = 0 → 3 ≤ st.imageCount)) := by
  constructor
  · intro caps
    simp only [requestedImageCount, Bool.and_eq_true, decide_eq_true_eq,
      Nat.min_def, gt_iff_lt]
    split_ifs <;> omega
  · intro supported support w actual st h hreq
    cases hsf : chooseSwapSurfaceFormat support.formats with
    | none => rw [mkSwapChain, hsf] at h; exact Option.noConfusion h
    | some sf =>
      cases hdf : findDepthFormat supported true with
      | none => rw [mkSwapChain, hsf, hdf] at h; exact Option.noConfusion h
      | some df =>
        rw [mkSwapChain, hsf, hdf, Option.some.injEq] at h
        subst h
        refine ⟨rfl, by simp, rfl, by simp, ?_⟩
        intro h2 h0
        have hr : requestedImageCount support.capabilities = 3 := by
          simp [requestedImageCount, h2, h0]
        show 3 ≤ actual
        omega

/-- Witness for C7: a device with `minImageCount = 2`, `maxImageCount = 0`
(unbounded) whose driver reports 3 images. -/
theorem swapChain_imageCount_spec_witness :
    requestedImageCount ⟨2, 0, ⟨800, 600⟩, ⟨1, 1⟩, ⟨4096, 4096⟩⟩ = 3 ∧
    (∃ st, mkSwapChain (fun _ => true)
        ⟨⟨2, 0, ⟨800, 600⟩, ⟨1, 1⟩, ⟨4096, 4096⟩⟩, [preferredSurfaceFormat],
          [VkPresentModeKHR.FIFO]⟩ ⟨800, 600⟩ 3 = some st ∧
      3 ≤ st.imageCount ∧ st.swapchainAttachment.images.length = st.imageCount) := by
  have h : mkSwapChain (fun _ => true)
      ⟨⟨2, 0, ⟨800, 600⟩, ⟨1, 1⟩, ⟨4096, 4096⟩⟩, [preferredSurfaceFormat],
        [VkPresentModeKHR.FIFO]⟩ ⟨800, 600⟩ 3 =
      some ⟨0, VkFormat.B8G8R8A8_SRGB, VkFormat.D32_SFLOAT_S8_UINT, ⟨800, 600⟩, 3,
        ⟨⟨AttachmentType.COLOR, ⟨800, 600⟩, VkFormat.B8G8R8A8_SRGB, 3, 1⟩, [0, 1, 2]⟩,
        [0, 1], [2, 3], [4, 5], [none, none, none]⟩ := by decide
  have hc := swapChain_imageCount_spec.2 (fun _ => true) _ _ 3 _ h (by decide)
  exact ⟨by decide, _, h, hc.2.2.2.2 rfl rfl, hc.2.1⟩

/-- A concrete swapchain state with three images, frame slot 0 active, and
the fence of slot 1 (handle 5) recorded as in flight for image 0. -/
def demoState : SwapChainState :=
  { currentFrame := 0,
    imageFormat := VkFormat.B8G8R8A8_SRGB,
    depthFormat := VkFormat.D32_SFLOAT_S8_UINT,
    extent := ⟨800, 600⟩,
    imageCount := 3,
    swapchainAttachment :=
      { props := getAttachmentProperties VkFormat.B8G8R8A8_SRGB ⟨800, 600⟩ 3,
        images := [0, 1, 2] },
    imageAvailableSemaphores := [0, 1],
    renderFinishedSemaphores := [2, 3],
    inFlightFences := [4, 5],
    imagesInFlight := [some 5, none, none] }

/-- The frame counter after a run of successful submissions: each call
adds one modulo `MAX_FRAMES_IN_FLIGHT`, whatever the present statuses. -/
theorem runSubmits_currentFrame (inputs : List (Nat × VkResult)) :
    ∀ s : SwapChainState, s.currentFrame < MAX_FRAMES_IN_FLIGHT →
      (runSubmits s inputs).currentFrame =
        (s.currentFrame + inputs.length) % MAX_FRAMES_IN_FLIGHT := by
  induction inputs with
  | nil =>
    intro s hs
    simp [runSubmits, Nat.mod_eq_of_lt hs]
  | cons p rest ih =>
    intro s hs
    obtain ⟨idx, r⟩ := p
    have hlt : (s.currentFrame + 1) % MAX_FRAMES_IN_FLIGHT < MAX_FRAMES_IN_FLIGHT :=
      Nat.mod_lt _ (by decide)
    have hstep : runSubmits s ((idx, r) :: rest) =
        runSubmits
          { s with
              currentFrame := (s.currentFrame + 1) % MAX_FRAMES_IN_FLIGHT,
              imagesInFlight :=
                s.imagesInFlight.set idx
                  (some (s.inFlightFences.getD s.currentFrame 0)) } rest := rfl
    rw [hstep, ih _ hlt]
    simp only [List.length_cons]
    rw [Nat.mod_add_mod]
    congr 1
    omega

/-- C1: `currentFrame` stays in `[0, MAX_FRAMES_IN_FLIGHT)`.  It is 0 at
construction; `acquireNextImage` never changes it; every returning
`submitCommandBuffers` call advances it by one modulo
`MAX_FRAMES_IN_FLIGHT`, whatever the present status; and over any run of
`MAX_FRAMES_IN_FLIGHT` successful submissions it cycles back to its
starting value. -/
theorem currentFrame_cycle :
    (∀ (supported : VkFormat → Bool) (support : SwapChainSupportDetails)
        (w : VkExtent2D) (actual : Nat) (st : SwapChainState),
      mkSwapChain supported support w actual = some st →
        st.currentFrame = 0 ∧ st.currentFrame < MAX_FRAMES_IN_FLIGHT) ∧
    (∀ (s : SwapChainState) (i : Nat) (r : VkResult),
      (acquireNextImage s i r).1.currentFrame = s.currentFrame) ∧
    (∀ (s : SwapChainState) (idx : Nat) (ok : Bool) (r : VkResult)
        (out : SwapChainState × List Event × VkResult),
      submitCommandBuffers s idx ok r = Except.ok out →
        out.1.currentFrame = (s.currentFrame + 1) % MAX_FRAMES_IN_FLIGHT ∧
        out.1.currentFrame < MAX_FRAMES_IN_FLIGHT) ∧
    (∀ (s : SwapChainState) (inputs : List (Nat × VkResult)),
      s.currentFrame < MAX_FRAMES_IN_FLIGHT →
      inputs.length = MAX_FRAMES_IN_FLIGHT →
        (runSubmits s inputs).currentFrame = s.currentFrame) := by
  refine ⟨?_, ?_, ?_, ?_⟩
  · intro supported support w actual st h
    cases hsf : chooseSwapSurfaceFormat support.formats with
    | none => rw [mkSwapChain, hsf] at h; exact Option.noConfusion h
    | some sf =>
      cases hdf : findDepthFormat supported true with
      | none => rw [mkSwapChain, hsf, hdf] at h; exact Option.noConfusion h
      | some df =>
        rw [mkSwapChain, hsf, hdf, Option.some.injEq] at h
        subst h
        exact ⟨rfl, by show (0 : Nat) < MAX_FRAMES_IN_FLIGHT; decide⟩
  · intro s i r
    rfl
  · intro s idx ok r out h
    cases ok with
    | false => exact Except.noConfusion h
    | true =>
      rw [submitCommandBuffers] at h
      simp only [if_true] at h
      cases h
      exact ⟨rfl, Nat.mod_lt _ (by decide)⟩
  · intro s inputs h1 h2
    rw [runSubmits_currentFrame inputs s h1, h2, Nat.add_mod_right,
      Nat.mod_eq_of_lt h1]

/-- Witness for C1: a freshly constructed swapchain starts at frame 0, and
two successful submissions from `demoState` (one presenting fine, one
reporting a stale surface) return `currentFrame` to its starting value. -/
theorem currentFrame_cycle_witness :
    (∃ st, mkSwapChain (fun _ => true)
        ⟨⟨2, 0, ⟨800, 600⟩, ⟨1, 1⟩, ⟨4096, 4096⟩⟩, [preferredSurfaceFormat],
          [VkPresentModeKHR.FIFO]⟩ ⟨800, 600⟩ 3 = some st ∧
      st.currentFrame = 0) ∧
    demoState.currentFrame < MAX_FRAMES_IN_FLIGHT ∧
    ([(0, VkResult.SUCCESS), (1, VkResult.ERROR_OUT_OF_DATE_KHR)].length =
      MAX_FRAMES_IN_FLIGHT) ∧
    (runSubmits demoState
        [(0, VkResult.SUCCESS), (1, VkResult.ERROR_OUT_OF_DATE_KHR)]).currentFrame =
      demoState.currentFrame := by
  have h : mkSwapChain (fun _ => true)
      ⟨⟨2, 0, ⟨800, 600⟩, ⟨1, 1⟩, ⟨4096, 4096⟩⟩, [preferredSurfaceFormat],
        [VkPresentModeKHR.FIFO]⟩ ⟨800, 600⟩ 3 =
      some ⟨0, VkFormat.B8G8R8A8_SRGB, VkFormat.D32_SFLOAT_S8_UINT, ⟨800, 600⟩, 3,
        ⟨⟨AttachmentType.COLOR, ⟨800, 600⟩, VkFormat.B8G8R8A8_SRGB, 3, 1⟩, [0, 1, 2]⟩,
        [0, 1], [2, 3], [4, 5], [none, none, none]⟩ := by decide
  refine ⟨⟨_, h, (currentFrame_cycle.1 _ _ _ _ _ h).1⟩, by decide, rfl, ?_⟩
  exact currentFrame_cycle.2.2.2 demoState _ (by decide) rfl

/-- C2: the submit/present protocol of `submitCommandBuffers` on the normal
path, when the fence table holds another frame's fence for the target
image.  The call first waits on that fence; the new state records the
current slot's fence as owning the image; the trace resets the current
slot's fence before the queue submission (which waits on the slot's
image-available semaphore and signals its render-finished semaphore and
fence) and presents after it; the call returns the present status
unchanged, whether success, surface-stale or error. -/
theorem submitCommandBuffers_protocol (s : SwapChainState) (idx : Nat)
    (r : VkResult) (f : Nat)
    (hfence : s.imagesInFlight.getD idx none = some f)
    (_hdiff : f ≠ s.inFlightFences.getD s.currentFrame 0) :
    submitCommandBuffers s idx true r =
      Except.ok
        ({ s with
            currentFrame := (s.currentFrame + 1) % MAX_FRAMES_IN_FLIGHT,
            imagesInFlight :=
              s.imagesInFlight.set idx
                (some (s.inFlightFences.getD s.currentFrame 0)) },
         [Event.waitFence f,
          Event.resetFence (s.inFlightFences.getD s.currentFrame 0),
          Event.queueSubmit (s.imageAvailableSemaphores.getD s.currentFrame 0)
            (s.renderFinishedSemaphores.getD s.currentFrame 0)
            (s.inFlightFences.getD s.currentFrame 0),
          Event.present (s.renderFinishedSemaphores.getD s.currentFrame 0)],
         r) := by
  rw [submitCommandBuffers]
  simp only [hfence, if_true, List.cons_append, List.nil_append]

/-- Witness for C2: from `demoState` (slot 0 active, fence 4; image 0 last
used by the frame holding fence 5) a submission whose present reports a
suboptimal surface. -/
theorem submitCommandBuffers_protocol_witness :
    demoState.imagesInFlight.getD 0 none = some 5 ∧
    (5 : Nat) ≠ demoState.inFlightFences.getD demoState.currentFrame 0 ∧
    submitCommandBuffers demoState 0 true VkResult.SUBOPTIMAL_KHR =
      Except.ok
        ({ demoState with
            currentFrame := 1,
            imagesInFlight := [some 4, none, none] },
         [Event.waitFence 5, Event.resetFence 4, Event.queueSubmit 0 2 4,
          Event.present 2],
         VkResult.SUBOPTIMAL_KHR) := by
  refine ⟨rfl, by decide, ?_⟩
  exact submitCommandBuffers_protocol demoState 0 VkResult.SUBOPTIMAL_KHR 5 rfl (by decide)
